import Mathlib

/-!
Shallow embedding of the scheduler / IPC subsystem of the redshirt
microkernel (src/core/src/scheduler/ipc.rs, src/core/src/id_pool.rs and the
wire format of src/interfaces/syscalls/src/ffi.rs), together with theorems
settling the specification claims about it.

Machine integers (u64 ids, u32 addresses, bytes) are modelled as `Nat`;
the only arithmetic the embedded code performs on them is equality tests,
little-endian serialisation and length comparisons, so no overflow wrapping
is involved except where written explicitly.
-/

namespace Redshirt

/-- Process identifier (u64). -/
abbrev Pid := Nat

/-- Thread identifier (u64). -/
abbrev ThreadId := Nat

/-- Message identifier (u64). -/
abbrev MessageId := Nat

/-- Interface hash: an opaque 32-byte identifier (`[u8; 32]`), modelled as its
list of bytes. Equality is byte equality. -/
abbrev InterfaceHash := List Nat

/-- Little-endian serialisation of `value` into `numBytes` bytes, as done by
`to_le_bytes` / `LittleEndian::write_u64` in the source. -/
def leBytes (numBytes value : Nat) : List Nat :=
  (List.range numBytes).map (fun i => value / 256 ^ i % 256)

/-- The `ffi::InterfaceMessage` struct used by ipc.rs: a message delivered to
the handler of an interface. -/
structure InterfaceMessage where
  interface : InterfaceHash
  message_id : Option MessageId
  emitter_pid : Pid
  index_in_list : Nat
  actual_data : List Nat

/-- The `ffi::ResponseMessage` struct: the answer to an emitted message.
`actual_data` is `Result<Vec<u8>, ()>` in the source. -/
structure ResponseMessage where
  message_id : MessageId
  index_in_list : Nat
  actual_data : Except Unit (List Nat)

/-- The `ffi::ProcessDestroyedMessage` struct: notification that a process
which had used one of our interfaces has been destroyed. -/
structure ProcessDestroyedMessage where
  index_in_list : Nat
  pid : Pid

/-- The `ffi::Message` enum stored in each process's `messages_queue`. -/
inductive Message where
  | interfaceMsg : InterfaceMessage → Message
  | response : ResponseMessage → Message
  | processDestroyed : ProcessDestroyedMessage → Message

/-- Wire encoding of an interface message, from `build_interface_message` in
ffi.rs: tag 0, the 32 interface bytes, the message id as u64 little endian
(0 when none), the emitter pid as u64, `index_in_list` as u32, then the
payload bytes. -/
def InterfaceMessage.encode (m : InterfaceMessage) : List Nat :=
  0 :: (m.interface ++ leBytes 8 (match m.message_id with | some id => id | none => 0)
    ++ leBytes 8 m.emitter_pid ++ leBytes 4 m.index_in_list ++ m.actual_data)

/-- Wire encoding of a response message, from `build_response_message` in
ffi.rs: tag 1, message id as u64, `index_in_list` as u32, then a success
byte 0 followed by the payload, or the single failure byte 1. -/
def ResponseMessage.encode (m : ResponseMessage) : List Nat :=
  1 :: (leBytes 8 m.message_id ++ leBytes 4 m.index_in_list
    ++ (match m.actual_data with | .ok d => 0 :: d | .error _ => [1]))

/-- Wire encoding of a process-destroyed message, from
`build_process_destroyed_message` in ffi.rs: tag 2, pid as u64,
`index_in_list` as u32. -/
def ProcessDestroyedMessage.encode (m : ProcessDestroyedMessage) : List Nat :=
  2 :: (leBytes 8 m.pid ++ leBytes 4 m.index_in_list)

/-- Wire encoding dispatch over the three message kinds. -/
def Message.encode : Message → List Nat
  | .interfaceMsg m => m.encode
  | .response m => m.encode
  | .processDestroyed m => m.encode

/-- The `set_index_in_list` update performed at delivery time
(ipc.rs lines 1082-1092): rewrite the `index_in_list` field of the message. -/
def Message.set_index_in_list : Message → Nat → Message
  | .interfaceMsg m, v => .interfaceMsg { m with index_in_list := v }
  | .response m, v => .response { m with index_in_list := v }
  | .processDestroyed m, v => .processDestroyed { m with index_in_list := v }

/-- The value that must appear in a waiting thread's `msg_ids` for the given
queued message to match (ipc.rs lines 1063-1070): the sentinel 1 for
interface and process-destroyed messages, the message id for responses. -/
def matchKey : Message → MessageId
  | .interfaceMsg _ => 1
  | .processDestroyed _ => 1
  | .response r => r.message_id

/-- The `iter().position(|id| *id == msg_id)` search over `msg_ids`
(ipc.rs line 1072): index of the first occurrence of `key`. -/
def positionOf (key : MessageId) : List MessageId → Option Nat
  | [] => none
  | id :: rest => if id = key then some 0 else (positionOf key rest).map (· + 1)

/-- Whether a queued message matches the `msg_ids` list of a waiting thread. -/
def messageMatches (msg_ids : List MessageId) (m : Message) : Bool :=
  (positionOf (matchKey m) msg_ids).isSome

/-- The scan of `messages_queue` from its head performed by
`try_resume_message_wait_thread` (ipc.rs lines 1055-1077): returns the
position in the queue of the first message whose match key occurs in
`msg_ids`, the position of that key inside `msg_ids`, and the message. -/
def findMatchFrom (msg_ids : List MessageId) : List Message → Option (Nat × Nat × Message)
  | [] => none
  | m :: rest =>
    match positionOf (matchKey m) msg_ids with
    | some k => some (0, k, m)
    | none => (findMatchFrom msg_ids rest).map (fun r => (r.1 + 1, r.2.1, r.2.2))

/-- The `MessageWait` thread-state payload (ipc.rs lines 231-242). -/
structure MessageWait where
  msg_ids : List MessageId
  msg_ids_ptr : Nat
  out_pointer : Nat
  out_size : Nat

/-- The `Thread` user-data enum of ipc.rs (lines 201-227). -/
inductive Thread where
  | readyToRun
  | messageWait : MessageWait → Thread
  | interfaceNotAvailableWait : InterfaceHash → Option MessageId → List Nat → Thread
  | extrinsicWait
  | inProcess

/-- A write into a process's linear memory: destination address and bytes. -/
structure MemWrite where
  addr : Nat
  bytes : List Nat

/-- Result of `try_resume_message_wait_thread` on one thread: the new thread
user data, the new `messages_queue` of its process, the writes made into the
process's linear memory, and the resume value passed to the engine (if the
thread was resumed). -/
structure ResumeThreadResult where
  thread : Thread
  queue : List Message
  writes : List MemWrite
  resumed : Option Nat

/-- Translation of `try_resume_message_wait_thread` (ipc.rs lines 1042-1119).
If the queue is empty or the thread is not in `MessageWait`, nothing happens.
Otherwise the queue is scanned for the first matching message; if none
matches, nothing happens. On a match, the message's `index_in_list` field is
set, the message is encoded, and: if it fits in `out_size` it is written to
`out_pointer`, the matched `msg_ids` slot is zeroed and the message is
removed from the queue; if it does not fit, no memory is written and the
message stays in the queue. In both cases the thread is resumed with the
encoded length. -/
def tryResumeMessageWaitThread : Thread → List Message → ResumeThreadResult
  | Thread.messageWait wait, queue =>
    if queue.isEmpty then ⟨Thread.messageWait wait, queue, [], none⟩
    else
      match findMatchFrom wait.msg_ids queue with
      | none => ⟨Thread.messageWait wait, queue, [], none⟩
      | some (i, k, m) =>
        let m2 := m.set_index_in_list k
        let msg_bytes := m2.encode
        let queue2 := queue.set i m2
        if wait.out_size ≥ msg_bytes.length then
          ⟨Thread.readyToRun, queue2.eraseIdx i,
            [⟨wait.out_pointer, msg_bytes⟩, ⟨wait.msg_ids_ptr + k * 8, List.replicate 8 0⟩],
            some msg_bytes.length⟩
        else
          ⟨Thread.readyToRun, queue2, [], some msg_bytes.length⟩
  | st, queue => ⟨st, queue, [], none⟩

/-- Association-list lookup, modelling `HashMap::get`: the value bound to the
first occurrence of the key. -/
def alookup {α β : Type} [DecidableEq α] (k : α) : List (α × β) → Option β
  | [] => none
  | (k', v) :: rest => if k' = k then some v else alookup k rest

/-- Association-list removal, modelling `HashMap::remove`: drop the first
binding of the key. -/
def aremove {α β : Type} [DecidableEq α] (k : α) : List (α × β) → List (α × β)
  | [] => []
  | (k', v) :: rest => if k' = k then rest else (k', v) :: aremove k rest

/-- Association-list insertion, modelling `HashMap::insert`: replace the
existing binding of the key, or append a new one. -/
def aupdate {α β : Type} [DecidableEq α] (k : α) (v : β) : List (α × β) → List (α × β)
  | [] => [(k, v)]
  | (k', v') :: rest => if k' = k then (k, v) :: rest else (k', v') :: aupdate k v rest

/-- `HashSet::insert`: add the element if it is not already present. -/
def insertSet {α : Type} [DecidableEq α] (x : α) (s : List α) : List α :=
  if x ∈ s then s else s ++ [x]

/-- The `InterfaceState` enum of ipc.rs (lines 58-69): an interface is either
handled by a process, or requested, with the list of threads blocked in
`InterfaceNotAvailableWait` on it and the other messages queued for it. -/
inductive InterfaceState where
  | process : Pid → InterfaceState
  | requested : List ThreadId → List (Pid × Option MessageId × List Nat) → InterfaceState

/-- The per-process user data of ipc.rs (struct `Process`, lines 176-197). -/
structure Process where
  messages_queue : List Message
  registered_interfaces : List InterfaceHash
  used_interfaces : List InterfaceHash
  emitted_messages : List MessageId
  messages_to_answer : List MessageId

/-- One live process of the processes collection: its pid, its ipc.rs user
data, and its threads (in collection order, main thread first) with their
user data. -/
structure ProcessEntry where
  pid : Pid
  user_data : Process
  threads : List (ThreadId × Thread)

/-- The events `run_inner` produces (enum `CoreRunOutcomeInner` of ipc.rs,
restricted to the variants the embedded operations construct). -/
inductive CoreEvent where
  | loopAgain
  | reservedPidInterfaceMessage (pid : Pid) (message_id : Option MessageId)
      (interface : InterfaceHash) (message : List Nat)
  | threadWaitUnavailableInterface (tid : ThreadId) (interface : InterfaceHash)
  | messageResponse (message_id : MessageId) (response : Except Unit (List Nat))

/-- The `Core` state (ipc.rs lines 32-54): interface registry, reserved pids,
outstanding-response table (`messages_to_answer`), the processes collection,
and the queue of pending events. -/
structure CoreState where
  interfaces : List (InterfaceHash × InterfaceState)
  reserved_pids : List Pid
  messages_to_answer : List (MessageId × Pid)
  processes : List ProcessEntry
  pending_events : List CoreEvent

/-- The ways the embedded code can panic, each naming the `panic!`,
`unwrap`, `assert` or `unreachable!` site in the source. -/
inductive Panic where
  | noProcessFoundWithThatEvent
  | unreachableUsedInterface
  | unimplementedCancelMessage
  | unwrapHandlerProcess
  | unwrapFlushedThread
  | assertInterfaceMismatch
  | unreachableFlushedThreadState

/-- `processes.process_by_id(pid)` over the embedded collection. -/
def processById (core : CoreState) (pid : Pid) : Option ProcessEntry :=
  core.processes.find? (fun e => e.pid == pid)

/-- `processes.thread_by_id(tid)`: owning pid and user data of a thread. -/
def threadById (core : CoreState) (tid : ThreadId) : Option (Pid × Thread) :=
  core.processes.foldr
    (fun e acc =>
      match alookup tid e.threads with
      | some t => some (e.pid, t)
      | none => acc)
    none

/-- Replace (by pid) a process entry in the collection. -/
def replaceProcess (core : CoreState) (e : ProcessEntry) : CoreState :=
  { core with processes := core.processes.map (fun p => if p.pid = e.pid then e else p) }

/-- Update (by pid) a process entry in the collection. -/
def updateProcess (core : CoreState) (pid : Pid) (f : ProcessEntry → ProcessEntry) : CoreState :=
  { core with processes := core.processes.map (fun p => if p.pid = pid then f p else p) }

/-- Overwrite the user data of one thread, wherever it lives. -/
def updateThread (core : CoreState) (tid : ThreadId) (st : Thread) : CoreState :=
  { core with
    processes := core.processes.map (fun e =>
      { e with threads := e.threads.map (fun t => if t.1 = tid then (t.1, st) else t) }) }

/-- The loop of `try_resume_message_wait` (ipc.rs lines 1024-1036) over the
threads of one process in collection order, threading the evolving message
queue through `try_resume_message_wait_thread`; also collects the memory
writes and resume values produced. -/
def tryResumeLoop (queue : List Message) :
    List (ThreadId × Thread) →
      List (ThreadId × Thread) × List Message × List (ThreadId × MemWrite) × List (ThreadId × Nat)
  | [] => ([], queue, [], [])
  | (tid, st) :: rest =>
    let r := tryResumeMessageWaitThread st queue
    let next := tryResumeLoop r.queue rest
    ((tid, r.thread) :: next.1,
     next.2.1,
     r.writes.map (fun w => (tid, w)) ++ next.2.2.1,
     (match r.resumed with | some v => [(tid, v)] | none => []) ++ next.2.2.2)

/-- `try_resume_message_wait(process)`: run the resume loop over a process
entry, returning the updated entry plus the writes and resumes. -/
def tryResumeMessageWait (e : ProcessEntry) :
    ProcessEntry × List (ThreadId × MemWrite) × List (ThreadId × Nat) :=
  let r := tryResumeLoop e.user_data.messages_queue e.threads
  ({ e with user_data := { e.user_data with messages_queue := r.2.1 }, threads := r.1 },
   r.2.2.1, r.2.2.2)

/-- Translation of `Core::answer_message_inner` (ipc.rs lines 850-883).
Looks the message id up in the outstanding-response table; if present, the
entry is removed and either a `Response` message is queued on the live
emitter (and its threads woken), or a `MessageResponse` event is returned
for a reserved-pid emitter. If the id is absent the source executes
`panic!("no process found with that event")`. -/
def answerMessageInner (core : CoreState) (message_id : MessageId)
    (response : Except Unit (List Nat)) : Except Panic (CoreState × Option CoreEvent) :=
  match alookup message_id core.messages_to_answer with
  | some emitter_pid =>
    let core1 : CoreState :=
      { core with messages_to_answer := aremove message_id core.messages_to_answer }
    match processById core1 emitter_pid with
    | some e =>
      let msg : Message := .response
        { message_id := message_id, index_in_list := 0, actual_data := response }
      let e1 : ProcessEntry :=
        { e with user_data :=
          { e.user_data with
            messages_queue := e.user_data.messages_queue ++ [msg],
            emitted_messages := e.user_data.emitted_messages.filter (fun m => m ≠ message_id) } }
      let r := tryResumeMessageWait e1
      .ok (replaceProcess core1 r.1, none)
    | none => .ok (core1, some (.messageResponse message_id response))
  | none => .error .noProcessFoundWithThatEvent

/-- The `EmitAnswer` branch of `run_inner` (ipc.rs lines 566-590) after
parameter decoding: the calling thread is resumed with no value, then
`answer_message_inner` runs with the `Ok` payload. -/
def emitAnswer (core : CoreState) (msg_id : MessageId) (message : List Nat) :
    Except Panic (CoreState × Option CoreEvent) :=
  answerMessageInner core msg_id (.ok message)

/-- The `EmitMessageError` branch of `run_inner` (ipc.rs lines 592-614) after
parameter decoding: the id is first removed from `messages_to_answer`
directly (line 608), the calling thread is resumed, and then
`answer_message_inner` runs with an `Err` response. -/
def emitMessageError (core : CoreState) (msg_id : MessageId) :
    Except Panic (CoreState × Option CoreEvent) :=
  let core1 : CoreState :=
    { core with messages_to_answer := aremove msg_id core.messages_to_answer }
  answerMessageInner core1 msg_id (.error ())

/-- The `CancelMessage` branch of `run_inner` (ipc.rs lines 616-620): the
source body is `unimplemented!()`, which panics before even decoding the
message id from the parameters. -/
def cancelMessageStep (core : CoreState) (tid : ThreadId) (params : List Nat) :
    Except Panic (CoreState × Option CoreEvent) :=
  .error .unimplementedCancelMessage

/-- Translation of `IdPool::assign` (src/core/src/id_pool.rs lines 44-71):
draw one value from the pool's random number generator, sampled uniformly
over the whole `0..=u64::MAX` range. The generator is modelled as an
explicit stream of raw outputs; `assign` consumes its head (reduced to 64
bits) and performs no filtering of any kind. Returns `none` only when the
modelling stream is exhausted. -/
def IdPool.assign : List Nat → Option (Nat × List Nat)
  | [] => none
  | d :: rest => some (d % 2 ^ 64, rest)

/-- The message-id allocation loop of the `EmitMessage` branch
(ipc.rs lines 473-483): repeatedly call `IdPool::assign`; skip the drawn id
if it is 0 or 1 or already occupied in `messages_to_answer`; otherwise
insert `id → emitter` into the table and return the id. The surrounding
`draws` list is the fuel: the source loops until a draw succeeds. -/
def allocMessageId (table : List (MessageId × Pid)) (emitter : Pid) :
    List Nat → Option (MessageId × List (MessageId × Pid))
  | [] => none
  | d :: draws =>
    match IdPool.assign (d :: draws) with
    | none => none
    | some (id, _rest) =>
      if id = 0 ∨ id = 1 then allocMessageId table emitter draws
      else
        match alookup id table with
        | some _ => allocMessageId table emitter draws
        | none => some (id, (id, emitter) :: table)

/-- Result of the `EmitMessage` branch: the new core state, the final user
data of the emitting thread, its resume value if it was resumed, the writes
into the emitter's linear memory, and the `run_inner` event. -/
structure EmitResult where
  core : CoreState
  thread_state : Thread
  resume : Option Nat
  writes : List MemWrite
  event : CoreEvent

/-- Translation of the `EmitMessage` branch of `run_inner`
(ipc.rs lines 437-564) after parameter decoding. If `needs_answer`, a fresh
message id is allocated, inserted into `messages_to_answer`, and immediately
written (little-endian u64) into the caller's memory at `message_id_write`
(lines 471-489) — all before the interface registry is consulted. The
interface is then recorded in the caller's `used_interfaces`, and the
registry decides: deliver to the live handler (resume caller with 0, queue
the message, wake the handler's threads), surface a reserved-pid event,
fail with 1 when no handler exists and `allow_delay` is false, or park the
thread in `InterfaceNotAvailableWait` when `allow_delay` is true. Returns
`none` only when the id-allocation fuel runs out. -/
def emitMessageStep (core : CoreState) (tid : ThreadId) (emitter_pid : Pid)
    (interface : InterfaceHash) (message : List Nat) (needs_answer allow_delay : Bool)
    (message_id_write : Nat) (draws : List Nat) : Option EmitResult :=
  let alloc : Option (Option MessageId × CoreState × List MemWrite) :=
    if needs_answer then
      match allocMessageId core.messages_to_answer emitter_pid draws with
      | none => none
      | some (id, table') =>
        some (some id, { core with messages_to_answer := table' },
          [⟨message_id_write, leBytes 8 id⟩])
    else some (none, core, [])
  match alloc with
  | none => none
  | some (message_id, core1, writes) =>
    let core2 := updateProcess core1 emitter_pid (fun e =>
      { e with user_data :=
        { e.user_data with
          used_interfaces := insertSet interface e.user_data.used_interfaces } })
    match alookup interface core2.interfaces, allow_delay with
    | some (.process pid), _ =>
      let core3 := updateThread core2 tid .readyToRun
      let msg : Message := .interfaceMsg
        { interface := interface, index_in_list := 0, message_id := message_id,
          emitter_pid := emitter_pid, actual_data := message }
      match processById core3 pid with
      | some e =>
        let e1 : ProcessEntry :=
          { e with user_data :=
            { e.user_data with messages_queue := e.user_data.messages_queue ++ [msg] } }
        let r := tryResumeMessageWait e1
        some ⟨replaceProcess core3 r.1, .readyToRun, some 0, writes, .loopAgain⟩
      | none =>
        some ⟨core3, .readyToRun, some 0, writes,
          .reservedPidInterfaceMessage emitter_pid message_id interface message⟩
    | none, false =>
      some ⟨updateThread core2 tid .readyToRun, .readyToRun, some 1, writes, .loopAgain⟩
    | some (.requested _ _), false =>
      some ⟨updateThread core2 tid .readyToRun, .readyToRun, some 1, writes, .loopAgain⟩
    | some (.requested threads other), true =>
      let st : Thread := .interfaceNotAvailableWait interface message_id message
      let core3 := updateThread core2 tid st
      let core4 : CoreState :=
        { core3 with
          interfaces := aupdate interface (.requested (threads ++ [tid]) other) core3.interfaces }
      some ⟨core4, st, none, writes, .threadWaitUnavailableInterface tid interface⟩
    | none, true =>
      let st : Thread := .interfaceNotAvailableWait interface message_id message
      let core3 := updateThread core2 tid st
      let core4 : CoreState :=
        { core3 with
          interfaces := aupdate interface (.requested [tid] []) core3.interfaces }
      some ⟨core4, st, none, writes, .threadWaitUnavailableInterface tid interface⟩

/-- The used-interfaces notification loop of the `ProcessFinished` branch
(ipc.rs lines 385-405). For each interface the dead process had used: if its
registry entry is `Process(p)` and `p` is live, a `ProcessDestroyed` message
is queued on `p` and its threads are woken; a `Requested` entry is skipped;
an absent entry hits `unreachable!()` in the source. -/
def notifyUsedInterfaces (dead_pid : Pid) :
    List InterfaceHash → CoreState → Except Panic CoreState
  | [], core => .ok core
  | interface :: rest, core =>
    match alookup interface core.interfaces with
    | some (.process p) =>
      let core1 :=
        match processById core p with
        | some e =>
          let msg : Message := .processDestroyed { index_in_list := 0, pid := dead_pid }
          let e1 : ProcessEntry :=
            { e with user_data :=
              { e.user_data with messages_queue := e.user_data.messages_queue ++ [msg] } }
          let r := tryResumeMessageWait e1
          replaceProcess core r.1
        | none => core
      notifyUsedInterfaces dead_pid rest core1
    | none => .error .unreachableUsedInterface
    | some (.requested _ _) => notifyUsedInterfaces dead_pid rest core

/-- Data of the `ProgramFinished` outcome assembled by the `ProcessFinished`
branch (ipc.rs lines 409-416). -/
structure FinishResult where
  core : CoreState
  unregistered_interfaces : List InterfaceHash
  cancelled_messages : List MessageId
  unhandled_messages : List MessageId

/-- Translation of the `ProcessFinished` branch of `run_inner`
(ipc.rs lines 355-417). The processes collection has already destroyed the
process and its threads when it reports the outcome, so the entry is removed
first; the dead-thread loop of the source does nothing (`_ => {}`). Then the
process's registered interfaces are removed from the registry, its emitted
messages are removed from `messages_to_answer` (becoming
`cancelled_messages`), and the handlers of its used interfaces are notified.
Returns `none` when no such process exists. -/
def processFinishedStep (core : CoreState) (pid : Pid) : Option (Except Panic FinishResult) :=
  match processById core pid with
  | none => none
  | some entry =>
    let ud := entry.user_data
    let core1 : CoreState :=
      { core with processes := core.processes.filter (fun e => !(e.pid == pid)) }
    let core2 : CoreState :=
      { core1 with
        interfaces := ud.registered_interfaces.foldl (fun m i => aremove i m) core1.interfaces }
    let core3 : CoreState :=
      { core2 with
        messages_to_answer :=
          ud.emitted_messages.foldl (fun m i => aremove i m) core2.messages_to_answer }
    match notifyUsedInterfaces pid ud.used_interfaces core3 with
    | .error p => some (.error p)
    | .ok core4 =>
      some (.ok ⟨core4, ud.registered_interfaces, ud.emitted_messages, ud.messages_to_answer⟩)

/-- The `other`-messages delivery loop of `Core::set_interface_handler`
(ipc.rs lines 670-689): each queued message is pushed onto the new handler's
queue, found through `process_by_id(process).unwrap()` — a panic when the
handler pid is not a live process. No thread wakeup is attempted here. -/
def deliverOtherMessages (interface : InterfaceHash) (process : Pid) :
    List (Pid × Option MessageId × List Nat) → CoreState → Except Panic CoreState
  | [], core => .ok core
  | (emitter_pid, message_id, message_data) :: rest, core =>
    match processById core process with
    | none => .error .unwrapHandlerProcess
    | some e =>
      let msg : Message := .interfaceMsg
        { interface := interface, index_in_list := 0, message_id := message_id,
          emitter_pid := emitter_pid, actual_data := message_data }
      let e1 : ProcessEntry :=
        { e with user_data :=
          { e.user_data with messages_queue := e.user_data.messages_queue ++ [msg] } }
      deliverOtherMessages interface process rest (replaceProcess core e1)

/-- The waiting-threads flush loop of `Core::set_interface_handler`
(ipc.rs lines 691-735): each thread id is looked up (`unwrap` — panic when
it no longer exists), its user data is replaced by `ReadyToRun`; it must be
in `InterfaceNotAvailableWait` for this very interface (`assert_eq!` /
`unreachable!` otherwise), is resumed with 0, and its pending message is
pushed onto the new handler's queue, or surfaced as a pending
`ReservedPidInterfaceMessage` event when the handler is not a live process.
No wakeup is attempted on the handler (the source comments it out). -/
def flushWaitingThreads (interface : InterfaceHash) (process : Pid) :
    List ThreadId → CoreState → Except Panic CoreState
  | [], core => .ok core
  | tid :: rest, core =>
    match threadById core tid with
    | none => .error .unwrapFlushedThread
    | some (emitter_pid, st) =>
      let core1 := updateThread core tid .readyToRun
      match st with
      | .interfaceNotAvailableWait int message_id message =>
        if interface = int then
          match processById core1 process with
          | some e =>
            let msg : Message := .interfaceMsg
              { interface := interface, index_in_list := 0, message_id := message_id,
                emitter_pid := emitter_pid, actual_data := message }
            let e1 : ProcessEntry :=
              { e with user_data :=
                { e.user_data with
                  messages_queue := e.user_data.messages_queue ++ [msg] } }
            flushWaitingThreads interface process rest (replaceProcess core1 e1)
          | none =>
            let core2 : CoreState :=
              { core1 with
                pending_events := core1.pending_events ++
                  [.reservedPidInterfaceMessage emitter_pid message_id interface message] }
            flushWaitingThreads interface process rest core2
        else .error .assertInterfaceMismatch
      | _ => .error .unreachableFlushedThreadState

/-- Translation of `Core::set_interface_handler` (ipc.rs lines 639-740).
A pid that is neither a live process nor reserved is rejected up front.
A vacant registry entry is filled with `Process(pid)`; an entry already in
the `Process` state is an error; a `Requested` entry is replaced by
`Process(pid)` and then its queued messages and waiting threads are flushed
to the new handler. The second component is `Ok ()` or `Err ()` exactly as
the source's `Result<(), ()>`. -/
def setInterfaceHandler (core : CoreState) (interface : InterfaceHash) (process : Pid) :
    Except Panic (CoreState × Except Unit Unit) :=
  if (processById core process).isNone && !(core.reserved_pids.contains process) then
    .ok (core, .error ())
  else
    match alookup interface core.interfaces with
    | none =>
      .ok ({ core with interfaces := aupdate interface (.process process) core.interfaces },
        .ok ())
    | some (.process _) => .ok (core, .error ())
    | some (.requested threads other) =>
      let core1 : CoreState :=
        { core with interfaces := aupdate interface (.process process) core.interfaces }
      match deliverOtherMessages interface process other core1 with
      | .error p => .error p
      | .ok core2 =>
        match flushWaitingThreads interface process threads core2 with
        | .error p => .error p
        | .ok core3 => .ok (core3, .ok ())

/-- The consistency property documented on `InterfaceState::Requested`
(ipc.rs lines 62-65): every thread id in the `threads` list of a `Requested`
registry entry refers to an existing thread whose user data is
`InterfaceNotAvailableWait` for that same interface. -/
def requestedThreadsConsistent (core : CoreState) : Bool :=
  core.interfaces.all (fun entry =>
    match entry.2 with
    | .process _ => true
    | .requested threads _ =>
      threads.all (fun tid =>
        match threadById core tid with
        | some (_, .interfaceNotAvailableWait int _ _) => int == entry.1
        | _ => false))

/-- A concrete 32-byte interface hash (byte 0xAA repeated). -/
def ifaceA : InterfaceHash := List.replicate 32 170

/-- A concrete 32-byte interface hash (byte 0xBB repeated). -/
def ifaceB : InterfaceHash := List.replicate 32 187

/-- A concrete 32-byte interface hash (byte 0xCC repeated). -/
def ifaceC : InterfaceHash := List.replicate 32 204

/-- A concrete 32-byte interface hash (byte 0xDD repeated). -/
def ifaceD : InterfaceHash := List.replicate 32 221

/-- Fresh per-process user data, as built by `Core::execute`
(ipc.rs lines 888-895). -/
def emptyProcess : Process :=
  { messages_queue := [], registered_interfaces := [], used_interfaces := [],
    emitted_messages := [], messages_to_answer := [] }

/-- Scenario for C1: a core whose outstanding-response table is empty, with
one live process (pid 5, one ready thread). -/
def coreC1 : CoreState :=
  { interfaces := [], reserved_pids := [], messages_to_answer := [],
    processes := [⟨5, emptyProcess, [(20, .readyToRun)]⟩], pending_events := [] }

/-- Scenario for C2: message id 7 is outstanding with emitter pid 5, and
process 5 is live with 7 in its `emitted_messages`. -/
def coreC2 : CoreState :=
  { interfaces := [], reserved_pids := [], messages_to_answer := [(7, 5)],
    processes :=
      [⟨5, { emptyProcess with emitted_messages := [7] }, [(20, .readyToRun)]⟩],
    pending_events := [] }

/-- Scenario for C3 and C4: a single live process with one thread currently
interrupted in an extrinsic call, an empty interface registry and an empty
outstanding-response table. -/
def coreSolo (pid : Pid) : CoreState :=
  { interfaces := [], reserved_pids := [], messages_to_answer := [],
    processes := [⟨pid, emptyProcess, [(20, .inProcess)]⟩], pending_events := [] }

/-- Scenario for C5: emitter process 5 (thread 20 interrupted in an
extrinsic) and handler process 6 registered for `ifaceD`. -/
def coreC5 : CoreState :=
  { interfaces := [(ifaceD, .process 6)], reserved_pids := [], messages_to_answer := [],
    processes :=
      [⟨5, emptyProcess, [(20, .inProcess)]⟩,
       ⟨6, emptyProcess, [(30, .readyToRun)]⟩],
    pending_events := [] }

/-- Scenario for C10: process 5 has a ready main thread 20 and a second
thread 21 parked in `InterfaceNotAvailableWait` on `ifaceC` (which it has
used); the registry holds `Requested { threads: [21], .. }` for `ifaceC`. -/
def coreC10 : CoreState :=
  { interfaces := [(ifaceC, .requested [21] [])], reserved_pids := [],
    messages_to_answer := [],
    processes :=
      [⟨5, { emptyProcess with used_interfaces := [ifaceC] },
        [(20, .readyToRun), (21, .interfaceNotAvailableWait ifaceC none [])]⟩],
    pending_events := [] }

/-- The empty core, as produced by `CoreBuilder::build` with no reserved
pids and no processes. -/
def coreEmpty : CoreState :=
  { interfaces := [], reserved_pids := [], messages_to_answer := [],
    processes := [], pending_events := [] }

/-- A concrete process-destroyed message (pid 5), matching the sentinel 1. -/
def msgPd1 : Message := .processDestroyed { index_in_list := 0, pid := 5 }

/-- A second concrete process-destroyed message (pid 6). -/
def msgPd2 : Message := .processDestroyed { index_in_list := 0, pid := 6 }

/-- A concrete response message for id 77 with a 3-byte payload; its wire
encoding is 17 bytes long. -/
def msgResp77 : Message := .response { message_id := 77, index_in_list := 0, actual_data := .ok [1, 2, 3] }

/-- A concrete `next_message` wait on id 77 with an output buffer of only
5 bytes. -/
def waitC7 : MessageWait := { msg_ids := [77], msg_ids_ptr := 100, out_pointer := 200, out_size := 5 }

/-- Soundness and minimality of the delivery scan: when `findMatchFrom`
selects the message at queue position `i` with `msg_ids` position `k`, that
message really sits at position `i`, its match key really occurs first at
position `k` of `msg_ids`, and no earlier queued message matches at all. -/
theorem findMatchFrom_spec (ids : List MessageId) (queue : List Message) (i k : Nat)
    (m : Message) (h : findMatchFrom ids queue = some (i, k, m)) :
    queue[i]? = some m ∧ positionOf (matchKey m) ids = some k ∧
      ∀ j, j < i → ∀ m', queue[j]? = some m' → messageMatches ids m' = false := by
  induction queue generalizing i k m with
  | nil => simp [findMatchFrom] at h
  | cons m0 rest ih =>
    rw [findMatchFrom] at h
    cases hp : positionOf (matchKey m0) ids with
    | some k0 =>
      simp only [hp, Option.some.injEq, Prod.mk.injEq] at h
      obtain ⟨h1, h2, h3⟩ := h
      subst h1; subst h2; subst h3
      refine ⟨by simp, hp, ?_⟩
      intro j hj
      omega
    | none =>
      simp only [hp, Option.map_eq_some'] at h
      obtain ⟨⟨i', k', m'⟩, hf, heq⟩ := h
      simp only [Prod.mk.injEq] at heq
      obtain ⟨h1, h2, h3⟩ := heq
      subst h1; subst h2; subst h3
      obtain ⟨hg, hpos, hmin⟩ := ih i' k' m' hf
      refine ⟨by simpa using hg, hpos, ?_⟩
      intro j hj mj hmj
      cases j with
      | zero =>
        simp only [List.getElem?_cons_zero, Option.some.injEq] at hmj
        subst hmj
        simp [messageMatches, hp]
      | succ j' =>
        simp only [List.getElem?_cons_succ] at hmj
        exact hmin j' (by omega) mj hmj

/-- Completeness of the delivery scan: if some queued message matches the
`msg_ids` list, the scan finds one. -/
theorem findMatchFrom_isSome (ids : List MessageId) (queue : List Message) (i : Nat)
    (m : Message) (hget : queue[i]? = some m) (hm : messageMatches ids m = true) :
    (findMatchFrom ids queue).isSome = true := by
  induction queue generalizing i with
  | nil => simp at hget
  | cons m0 rest ih =>
    rw [findMatchFrom]
    cases hp : positionOf (matchKey m0) ids with
    | some k0 => simp [hp]
    | none =>
      cases i with
      | zero =>
        simp only [List.getElem?_cons_zero, Option.some.injEq] at hget
        subst hget
        rw [messageMatches, hp] at hm
        simp at hm
      | succ i' =>
        simp only [List.getElem?_cons_succ] at hget
        simp only [hp, Option.isSome_map']
        exact ih i' hget

/-- C6. FIFO selection by the delivery scan of
`try_resume_message_wait_thread`: whenever two messages of a process's
incoming queue both match a waiting thread's `msg_ids` list and `m1` was
enqueued before `m2` (it sits at a lower queue position), the scan selects a
matching message no later than `m1` — the earliest-enqueued matching
message — and in particular strictly before `m2`, so `m1` is delivered
before `m2`. -/
theorem c6_delivery_scan_fifo (ids : List MessageId) (queue : List Message)
    (i1 i2 : Nat) (m1 m2 : Message) (h12 : i1 < i2)
    (h1 : queue[i1]? = some m1) (h2 : queue[i2]? = some m2)
    (hm1 : messageMatches ids m1 = true) (hm2 : messageMatches ids m2 = true) :
    ∃ j k m, findMatchFrom ids queue = some (j, k, m) ∧ j ≤ i1 ∧ j < i2 ∧
      queue[j]? = some m ∧ messageMatches ids m = true ∧
      ∀ j', j' < j → ∀ m', queue[j']? = some m' → messageMatches ids m' = false := by
  have hsome := findMatchFrom_isSome ids queue i1 m1 h1 hm1
  obtain ⟨⟨j, k, m⟩, hfind⟩ := Option.isSome_iff_exists.mp hsome
  obtain ⟨hget, hpos, hmin⟩ := findMatchFrom_spec ids queue j k m hfind
  have hj : j ≤ i1 := by
    by_contra hlt
    push_neg at hlt
    have := hmin i1 hlt m1 h1
    rw [hm1] at this
    exact Bool.true_eq_false.mp this
  exact ⟨j, k, m, hfind, hj, lt_of_le_of_lt hj h12, hget,
    by simp [messageMatches, hpos], hmin⟩

/-- Witness for C6: with `msg_ids = [1]` and two queued process-destroyed
messages, the scan selects the one at position 0. -/
theorem c6_delivery_scan_fifo_witness :
    ∃ j k m, findMatchFrom [1] [msgPd1, msgPd2] = some (j, k, m) ∧ j ≤ 0 ∧ j < 1 ∧
      [msgPd1, msgPd2][j]? = some m ∧ messageMatches [1] m = true ∧
      ∀ j', j' < j → ∀ m', [msgPd1, msgPd2][j']? = some m' →
        messageMatches [1] m' = false :=
  c6_delivery_scan_fifo [1] [msgPd1, msgPd2] 0 1 msgPd1 msgPd2 (by decide) rfl rfl rfl rfl

/-- C7. Oversize read in `try_resume_message_wait_thread`: when the earliest
matching queued message encodes to strictly more bytes than the waiting
thread's `out_size`, the thread is resumed with that encoded length, no
linear memory is written (neither `out_pointer` nor the `msg_ids` array),
and the message stays in the queue (only its `index_in_list` field having
been set), so the queue keeps its length. -/
theorem c7_oversize_read (wait : MessageWait) (queue : List Message) (i k : Nat)
    (m : Message) (hfind : findMatchFrom wait.msg_ids queue = some (i, k, m))
    (hover : (m.set_index_in_list k).encode.length > wait.out_size) :
    tryResumeMessageWaitThread (Thread.messageWait wait) queue =
      ⟨Thread.readyToRun, queue.set i (m.set_index_in_list k), [],
        some (m.set_index_in_list k).encode.length⟩ ∧
      (queue.set i (m.set_index_in_list k)).length = queue.length := by
  have hne : queue.isEmpty = false := by
    cases queue with
    | nil => simp [findMatchFrom] at hfind
    | cons a l => rfl
  refine ⟨?_, List.length_set queue i _⟩
  rw [tryResumeMessageWaitThread, hne]
  simp only [Bool.false_eq_true, if_false, hfind]
  rw [if_neg (by omega)]

/-- Witness for C7: a 17-byte response message against a 5-byte buffer. -/
theorem c7_oversize_read_witness :
    tryResumeMessageWaitThread (Thread.messageWait waitC7) [msgResp77] =
      ⟨Thread.readyToRun, [msgResp77].set 0 (msgResp77.set_index_in_list 0), [],
        some (msgResp77.set_index_in_list 0).encode.length⟩ ∧
      ([msgResp77].set 0 (msgResp77.set_index_in_list 0)).length = [msgResp77].length :=
  c7_oversize_read waitC7 [msgResp77] 0 0 msgResp77 rfl (by decide)

/-- C1. Contrary to the claim, `emit_answer` with a message id absent from
the outstanding-response table is not a benign no-op: `answer_message_inner`
reaches `panic!("no process found with that event")` (ipc.rs line 881),
crashing the Core. Evaluated at the failing input: id 99 on a core whose
table is empty. -/
theorem c1_emit_answer_unknown_id_panics :
    alookup 99 coreC1.messages_to_answer = none ∧
      emitAnswer coreC1 99 [] = .error Panic.noProcessFoundWithThatEvent :=
  ⟨rfl, rfl⟩

/-- C2. Contrary to the claim, `emit_message_error` with a message id that
is present in the outstanding-response table crashes the Core: the branch
first removes the entry directly (ipc.rs line 608) and then calls
`answer_message_inner`, which no longer finds it and panics, so no
`Response{Err}` is ever enqueued. Evaluated at the failing input: id 7
outstanding for live emitter 5. -/
theorem c2_emit_message_error_present_id_panics :
    alookup 7 coreC2.messages_to_answer = some 5 ∧
      emitMessageError coreC2 7 = .error Panic.noProcessFoundWithThatEvent :=
  ⟨rfl, rfl⟩

/-- C3. Contrary to the claim, process-destruction cleanup does not skip a
used interface that has no registry entry: it hits `unreachable!()`
(ipc.rs line 402). The state is reachable: a failed `emit_message` with
`allow_delay = false` on an unregistered interface records the interface in
`used_interfaces` (resuming the caller with 1) without creating any registry
entry, and the process then finishing crashes the Core. -/
theorem c3_destroyed_process_unregistered_interface_panics :
    ∃ r, emitMessageStep (coreSolo 5) 20 5 ifaceB [] false false 0 [] = some r ∧
      r.resume = some 1 ∧
      r.core.interfaces = [] ∧
      (processById r.core 5).map (fun e => e.user_data.used_interfaces) = some [ifaceB] ∧
      processFinishedStep r.core 5 = some (.error Panic.unreachableUsedInterface) :=
  ⟨_, rfl, rfl, rfl, rfl, rfl⟩

/-- C4. Contrary to the claim, a failed `emit_message` with
`needs_answer = true` and `allow_delay = false` on an unhandled interface
leaves the freshly allocated id in the outstanding-response table and has
already written the id into the caller's memory at `id_out_ptr`
(ipc.rs lines 471-489 run before the registry is consulted): with draw 9 the
caller is resumed with 1, yet `messages_to_answer` maps 9 to the emitter and
the write log contains the id write. -/
theorem c4_failed_emit_leaks_entry_and_writes_id :
    ∃ r, emitMessageStep (coreSolo 7) 20 7 ifaceA [1, 2] true false 1000 [9] = some r ∧
      r.resume = some 1 ∧
      alookup 9 r.core.messages_to_answer = some 7 ∧
      r.writes = [⟨1000, leBytes 8 9⟩] :=
  ⟨_, rfl, rfl, rfl, rfl⟩

/-- C5. Contrary to the claim, `cancel_message` never removes anything: the
`CancelMessage` branch of `run_inner` is `unimplemented!()`
(ipc.rs line 620) and panics on every call. Evaluated at the failing input:
after an `emit_message` with `needs_answer = true` to the live handler of
`ifaceD` allocates outstanding id 7, cancelling crashes the Core. -/
theorem c5_cancel_message_unimplemented_panics :
    ∃ r, emitMessageStep coreC5 20 5 ifaceD [3] true true 500 [7] = some r ∧
      r.resume = some 0 ∧
      alookup 7 r.core.messages_to_answer = some 5 ∧
      cancelMessageStep r.core 20 [500] = .error Panic.unimplementedCancelMessage :=
  ⟨_, rfl, rfl, rfl, rfl⟩

/-- C8 counterexample. The claim that `IdPool::assign` itself rejects the
sentinels on every draw is false: `assign` samples uniformly over the whole
`0..=u64::MAX` range with no filtering, so a draw can be 0 (or 1). -/
theorem c8_counterexample :
    ¬ (∀ (draws : List Nat) (id : Nat) (rest : List Nat),
        IdPool.assign draws = some (id, rest) → id ≠ 0 ∧ id ≠ 1) :=
  fun h => (h [0] 0 [] rfl).1 rfl

/-- C8 (amended). The rejection of the sentinels happens in the caller: the
message-id allocation loop of the `EmitMessage` branch re-draws whenever
`IdPool::assign` returns 0 or 1 or an id already in the outstanding-response
table, so every message id it hands out differs from 0 and 1, is fresh, and
is inserted for the emitter. -/
theorem c8_message_id_alloc_avoids_sentinels (draws : List Nat)
    (table : List (MessageId × Pid)) (emitter : Pid) (id : MessageId)
    (table' : List (MessageId × Pid))
    (h : allocMessageId table emitter draws = some (id, table')) :
    id ≠ 0 ∧ id ≠ 1 ∧ alookup id table = none ∧ table' = (id, emitter) :: table := by
  induction draws with
  | nil => simp [allocMessageId] at h
  | cons d rest ih =>
    rw [allocMessageId] at h
    simp only [IdPool.assign] at h
    by_cases h01 : d % 2 ^ 64 = 0 ∨ d % 2 ^ 64 = 1
    · rw [if_pos h01] at h
      exact ih h
    · rw [if_neg h01] at h
      cases hl : alookup (d % 2 ^ 64) table with
      | some p =>
        simp only [hl] at h
        exact ih h
      | none =>
        simp only [hl, Option.some.injEq, Prod.mk.injEq] at h
        obtain ⟨h1, h2⟩ := h
        subst h1; subst h2
        exact ⟨fun h0 => h01 (Or.inl h0), fun h1' => h01 (Or.inr h1'), hl, rfl⟩

/-- Witness for the amended C8: drawing 0 then 1 then 5 hands out id 5. -/
theorem c8_message_id_alloc_witness :
    allocMessageId [] 7 [0, 1, 5] = some (5, [(5, 7)]) ∧
      (5 : MessageId) ≠ 0 ∧ (5 : MessageId) ≠ 1 ∧
      alookup (5 : MessageId) ([] : List (MessageId × Pid)) = none ∧
      ([(5, 7)] : List (MessageId × Pid)) = (5, 7) :: [] :=
  ⟨rfl, c8_message_id_alloc_avoids_sentinels [0, 1, 5] [] 7 5 [(5, 7)] rfl⟩

/-- C9. `set_interface_handler` with a pid that neither refers to a live
process nor is reserved returns `Err(())` up front and leaves the whole core
state — in particular the interface registry — unchanged, whether or not
the interface has a registry entry. -/
theorem c9_set_handler_unknown_pid_rejected (core : CoreState)
    (interface : InterfaceHash) (p : Pid)
    (hlive : processById core p = none)
    (hres : core.reserved_pids.contains p = false) :
    setInterfaceHandler core interface p = .ok (core, .error ()) := by
  rw [setInterfaceHandler, hlive, hres]
  rfl

/-- Witness for C9: registering pid 3 on the empty core fails benignly. -/
theorem c9_set_handler_unknown_pid_rejected_witness :
    setInterfaceHandler coreEmpty ifaceA 3 = .ok (coreEmpty, .error ()) :=
  c9_set_handler_unknown_pid_rejected coreEmpty ifaceA 3 rfl rfl

/-- C10. Contrary to the claim, the documented `Requested`-threads
consistency property is not preserved by every Core operation: destroying a
process whose thread 21 is in `InterfaceNotAvailableWait` leaves 21 dangling
inside the `Requested` registry entry (the dead-thread loop of the
`ProcessFinished` branch does nothing), so the invariant holds before the
step and fails after it, with the registry still naming the vanished
thread. -/
theorem c10_requested_threads_invariant_broken :
    requestedThreadsConsistent coreC10 = true ∧
      ∃ fr, processFinishedStep coreC10 5 = some (.ok fr) ∧
        requestedThreadsConsistent fr.core = false ∧
        alookup ifaceC fr.core.interfaces = some (.requested [21] []) ∧
        threadById fr.core 21 = none :=
  ⟨rfl, _, rfl, rfl, rfl, rfl⟩

end Redshirt
